import Mathlib

/-!
# Verification of the `c2casgiutils.broadcast` subsystem

Shallow embedding of `c2casgiutils/broadcast/__init__.py` (facade, RPC
decoration layer, type-directed payload (de)serialization) together with
the parts of the data model it relies on (`broadcast/types.py`).

Python values that flow through the serialization helpers are modelled by
`PyValue`: primitives, plain string-keyed mappings of primitives, Pydantic
model instances (carrying their flat field schema) and `None`.  Pydantic's
`model_dump(mode="json")` and `model_validate` are modelled for flat models
whose fields are JSON primitives.  Fallible Python code (assertions,
Pydantic validation errors) is modelled with `Except PyErr`.
-/

/-- A JSON-serializable primitive value (int, str or bool). -/
inductive Prim where
  | pint (n : Int)
  | pstr (s : String)
  | pbool (b : Bool)
  deriving DecidableEq, Repr

/-- The type of a primitive value, as declared in a Pydantic model field. -/
inductive PrimTy where
  | tint
  | tstr
  | tbool
  deriving DecidableEq, Repr

/-- The declared type of a `Prim`. -/
def primTy : Prim → PrimTy
  | .pint _ => .tint
  | .pstr _ => .tstr
  | .pbool _ => .tbool

/-- A flat Pydantic model schema: field name paired with field type. -/
abbrev Schema := List (String × PrimTy)

/-- A Python value as seen by the broadcast (de)serialization helpers:
a primitive, a plain dict of primitives, a Pydantic model instance
(`isinstance(value, BaseModel)` holds exactly for `.model`), or `None`. -/
inductive PyValue where
  | prim (p : Prim)
  | dict (entries : List (String × Prim))
  | model (schema : Schema) (fields : List (String × Prim))
  | pynone
  deriving DecidableEq, Repr

/-- A Python annotation/type object as classified by the helpers in
`broadcast/__init__.py`: a Pydantic `BaseModel` subclass, some other
class (`isinstance(t, type)` but not a `BaseModel` subclass), or a
non-class annotation such as a generic alias. -/
inductive PyTypeObj where
  | modelClass (schema : Schema)
  | otherClass
  | nonClass
  deriving DecidableEq, Repr

/-- A Python exception raised by the embedded code: the `assert` in the
decorator's wrapper, or a Pydantic `ValidationError`. -/
inductive PyErr where
  | assertionError (msg : String)
  | validationError
  deriving DecidableEq, Repr

/-- First-match lookup in a string-keyed association list (Python dict
access `d[key]` / `d.get(key)` for the dicts the helpers manipulate). -/
def lookupKey {α : Type} (k : String) : List (String × α) → Option α
  | [] => none
  | (key, v) :: rest => if k = key then some v else lookupKey k rest

/-- Pydantic `model_dump(mode="json")` on a flat model: the plain dict of
its fields (JSON primitives serialize to themselves). -/
def model_dump (fields : List (String × Prim)) : PyValue :=
  .dict fields

/-- Field validation core of Pydantic `model_validate` for a flat model:
each schema field must be present in the input mapping with a value of the
declared primitive type; extra keys are ignored (Pydantic's default). -/
def validateFields (schema : Schema) (entries : List (String × Prim)) :
    Option (List (String × Prim)) :=
  match schema with
  | [] => some []
  | (k, ty) :: rest =>
    match lookupKey k entries with
    | some p =>
      if primTy p = ty then
        (validateFields rest entries).map (fun fs => (k, p) :: fs)
      else none
    | none => none

/-- Pydantic `SomeModel.model_validate(payload)` on a plain mapping:
reconstructs a model instance of the declared schema, or raises a
`ValidationError`. -/
def model_validate (schema : Schema) (entries : List (String × Prim)) :
    Except PyErr PyValue :=
  match validateFields schema entries with
  | some fields => .ok (.model schema fields)
  | none => .error .validationError

/-- Embedding of `_serialize_params` (`broadcast/__init__.py` lines
119-127): converts Pydantic model values to dicts via
`model_dump(mode="json")`, leaves every other value unchanged. -/
def _serialize_params (params : List (String × PyValue)) :
    List (String × PyValue) :=
  params.map fun kv =>
    match kv.2 with
    | .model _ fields => (kv.1, model_dump fields)
    | v => (kv.1, v)

/-- Embedding of `_deserialize_payload` (lines 130-138): if `return_type`
is `None` or not a class, return the payload; if the payload is a dict and
`return_type` is a Pydantic model subclass, validate it into a model;
otherwise return the payload unchanged. -/
def _deserialize_payload (payload : PyValue) (return_type : Option PyTypeObj) :
    Except PyErr PyValue :=
  match return_type with
  | none => .ok payload
  | some .nonClass => .ok payload
  | some .otherClass => .ok payload
  | some (.modelClass schema) =>
    match payload with
    | .dict entries => model_validate schema entries
    | _ => .ok payload

/-- A Python function as the decoration layer sees it: its defining
module (`__module__`), its name (`__name__`) and its type hints
(`get_type_hints(func)`, the `"return"` annotation included). -/
structure PyFunc where
  module : String
  name : String
  hints : List (String × PyTypeObj)
  deriving DecidableEq, Repr

/-- One step of `_deserialize_kwargs`' loop body (lines 146-154): an
annotated dict value whose annotation is a Pydantic model class is
validated into a model; every other value passes through. -/
def _deserialize_kwarg (func : PyFunc) (kv : String × PyValue) :
    Except PyErr (String × PyValue) :=
  match lookupKey kv.1 func.hints with
  | some param_type =>
    match kv.2, param_type with
    | .dict entries, .modelClass schema =>
      (model_validate schema entries).map fun v => (kv.1, v)
    | _, _ => .ok kv
  | none => .ok kv

/-- Embedding of `_deserialize_kwargs` (lines 141-156): rebuilds the
kwargs dict, validating each value whose declared type is a Pydantic
model class. -/
def _deserialize_kwargs (kwargs : List (String × PyValue)) (func : PyFunc) :
    Except PyErr (List (String × PyValue)) :=
  kwargs.mapM (_deserialize_kwarg func)

/-- Embedding of `_get_return_type` (lines 159-163):
`get_type_hints(func).get("return")`. -/
def _get_return_type (func : PyFunc) : Option PyTypeObj :=
  lookupKey "return" func.hints

/-- The raw response dict a backend broadcaster produces for one answering
process — the keyword arguments of `BroadcastResponse(**response)`
(`broadcast/types.py`: hostname, pid, payload). -/
structure Resp where
  hostname : String
  pid : Int
  payload : PyValue
  deriving DecidableEq, Repr

/-- An element of the list returned by the facade-level `broadcast`: a
`BroadcastResponse` envelope or a `MissingAnswer` sentinel. -/
inductive Item where
  | envelope (hostname : String) (pid : Int) (payload : PyValue)
  | missing
  deriving DecidableEq, Repr

/-- Whether an `Item` is a `BroadcastResponse` envelope
(`isinstance(item, BroadcastResponse)`). -/
def Item.isEnvelope : Item → Bool
  | .envelope _ _ _ => true
  | .missing => false

/-- The behavior of the active backend broadcaster's `broadcast` method:
given channel, parameter dict, `expect_answers` and timeout, it returns
`None` or a list whose elements are response dicts or `None` (a missing
answer). -/
def Backend : Type :=
  String → List (String × PyValue) → Bool → Nat → Option (List (Option Resp))

/-- The arguments the facade passes to the active backend's `broadcast`
(line 104-106); recorded so theorems can speak about what was published. -/
structure BroadcastCall where
  channel : String
  params : List (String × PyValue)
  expect_answers : Bool
  timeout : Nat
  deriving DecidableEq, Repr

/-- Line 111's conversion of one backend response:
`BroadcastResponse(**response) if response is not None else MissingAnswer()`. -/
def respToItem : Option Resp → Item
  | some r => .envelope r.hostname r.pid r.payload
  | none => .missing

/-- Embedding of the facade-level `broadcast` (lines 93-112), parameterized
by the active backend's behavior.  `params=None` defaults to the empty dict
(line 105); a `None` backend result is passed through; a list result is
mapped elementwise through `respToItem`.  Also returns the call made to the
backend. -/
def broadcast (backend : Backend) (channel : String)
    (params : Option (List (String × PyValue))) (expect_answers : Bool)
    (timeout : Nat) : Option (List Item) × BroadcastCall :=
  let sent := match params with
    | some p => p
    | none => []
  let call : BroadcastCall := ⟨channel, sent, expect_answers, timeout⟩
  let responses := backend channel sent expect_answers timeout
  (responses.map (fun rsl => rsl.map respToItem), call)

/-- Lines 234-236 of the wrapper: deserialize the payload of a
`BroadcastResponse` item in place; `MissingAnswer` items are untouched. -/
def deserializeItem (return_type : Option PyTypeObj) : Item → Except PyErr Item
  | .envelope h p payload =>
    (_deserialize_payload payload return_type).map fun pl => .envelope h p pl
  | .missing => .ok .missing

/-- The default channel derivation of `decorate` (line 214):
`f"c2c_decorated_{func.__module__}.{func.__name__}"` when no channel is
given, the explicit channel otherwise. -/
def decorateChannel (channel : Option String) (func : PyFunc) : String :=
  match channel with
  | none => "c2c_decorated_" ++ func.module ++ "." ++ func.name
  | some c => c

/-- Lines 228-237 of the wrapper's `expect_answers` path: a `None` facade
result is returned as `None` (line 229); otherwise each item's payload is
deserialized against the declared return type (lines 234-236, which may
raise a `ValidationError`) and the list is returned. -/
def collectAnswers (return_type : Option PyTypeObj) :
    Option (List Item) → Except PyErr (Option (List Item))
  | none => .ok none
  | some items =>
    match items.mapM (deserializeItem return_type) with
    | .ok items2 => .ok (some items2)
    | .error e => .error e

/-- Embedding of the caller-side stub `wrapper` produced by `decorate`
(lines 216-239), parameterized by the active backend.  Positional
arguments trip the assertion (line 221) before anything is published;
kwargs are serialized (line 223); with `expect_answers` the facade result's
envelope payloads are deserialized against the declared return type
(lines 224-237), otherwise the stub returns `None` (lines 238-239).
The second component lists the broadcast calls the stub made. -/
def wrapper (backend : Backend) (func : PyFunc) (chan : String)
    (expect_answers : Bool) (timeout : Nat) (args : List PyValue)
    (kwargs : List (String × PyValue)) :
    Except PyErr (Option (List Item)) × List BroadcastCall :=
  if args = [] then
    let serialized_kwargs := _serialize_params kwargs
    if expect_answers then
      let r := broadcast backend chan (some serialized_kwargs) true timeout
      (collectAnswers (_get_return_type func) r.1, [r.2])
    else
      let r := broadcast backend chan (some serialized_kwargs) false timeout
      (.ok none, [r.2])
  else
    (.error (.assertionError
      "Broadcast decorator should not be called with positional arguments"), [])

/-- The concrete class of a broadcaster instance: `local.LocalBroadcaster`
or the Networked `redis.RedisBroadcaster`. -/
inductive BrKind where
  | loc
  | redis
  deriving DecidableEq, Repr

/-- The observable state of a broadcaster instance: its class, whether
`init()` has completed on it, and its channel → handler subscription map
(handlers abstracted as numeric identities). -/
structure Broadcaster where
  kind : BrKind
  initialized : Bool
  subs : List (String × Nat)
  deriving DecidableEq, Repr

/-- The facade's module-global `_broadcaster` reference: `None` until set. -/
abbrev FacadeState := Option Broadcaster

/-- Embedding of `startup` (lines 21-53) as one atomic call, with redis
availability (`master`/`slave` from `redis_utils.get()`) as inputs.
If `_broadcaster is None`: construct Redis when both redis handles exist,
else Local, and `init()` it.  If the current broadcaster is Local and redis
is available: construct a Redis broadcaster, `init()` it and
`copy_local_subscriptions` from the previous instance.  Otherwise the
state is unchanged. -/
def startup (master slave : Bool) (s : FacadeState) : FacadeState :=
  match s with
  | none =>
    if master && slave then some ⟨.redis, true, []⟩
    else some ⟨.loc, true, []⟩
  | some b =>
    if b.kind = .loc && master && slave then
      some ⟨.redis, true, b.subs⟩
    else some b

/-- Embedding of `cleanup` (lines 65-68): drop the broadcaster reference. -/
def cleanup (_s : FacadeState) : FacadeState := none

/-- Severity of a log record emitted by the facade. -/
inductive LogLevel where
  | error
  | warning
  | info
  deriving DecidableEq, Repr

/-- A log record: severity and message. -/
structure LogEvent where
  level : LogLevel
  msg : String
  deriving DecidableEq, Repr

/-- Embedding of `_get` (lines 56-62): when `_broadcaster is None`,
construct a `LocalBroadcaster` (its `init()` is never called here) and log
an error-level record only when `need_init` is true.  Returns the
broadcaster handed to the caller, the new global state, and the log
records emitted. -/
def _get (need_init : Bool) (s : FacadeState) :
    Broadcaster × FacadeState × List LogEvent :=
  match s with
  | some b => (b, some b, [])
  | none =>
    let logs : List LogEvent :=
      if need_init then
        [⟨.error, "Broadcast functionality used before it is setup"⟩]
      else []
    let b : Broadcaster := ⟨.loc, false, []⟩
    (b, some b, logs)

/-- Modelled from the spec: `local.LocalBroadcaster.subscribe` is not under
`src/` (only its callers and tests are).  Spec §4.1/§4.2: `subscribe`
stores the handler in an ordinary mapping; a double subscription to an
already-registered channel logs an error and is a no-op, never fatal. -/
def localSubscribe (b : Broadcaster) (channel : String) (handler : Nat) :
    Broadcaster × List LogEvent :=
  match lookupKey channel b.subs with
  | some _ => (b, [⟨.error, "Channel already subscribed"⟩])
  | none => ({ b with subs := b.subs ++ [(channel, handler)] }, [])

/-- Modelled from the spec: `local.LocalBroadcaster.unsubscribe` is not
under `src/`.  Spec §4.1: removes the registration for the channel. -/
def localUnsubscribe (b : Broadcaster) (channel : String) : Broadcaster :=
  { b with subs := b.subs.filter (fun kv => kv.1 ≠ channel) }

/-- Embedding of the facade-level `subscribe` (lines 71-81):
`_get().subscribe(channel, callback)` with `need_init=False`.  Returns the
new global state and all log records emitted. -/
def facadeSubscribe (channel : String) (handler : Nat) (s : FacadeState) :
    FacadeState × List LogEvent :=
  let g := _get false s
  let r := localSubscribe g.1 channel handler
  (some r.1, g.2.2 ++ r.2)

/-- Embedding of the facade-level `unsubscribe` (lines 84-86):
`_get().unsubscribe(channel)` with `need_init=False`. -/
def facadeUnsubscribe (channel : String) (s : FacadeState) :
    FacadeState × List LogEvent :=
  let g := _get false s
  (some (localUnsubscribe g.1 channel), g.2.2)

/-- The `_get(need_init=True)` step of the facade-level `broadcast`
(line 104): the state transition and log records of using `broadcast`
on a given facade state. -/
def facadeBroadcastGet (s : FacadeState) : FacadeState × List LogEvent :=
  let g := _get true s
  (g.2.1, g.2.2)

/-- One complete facade call mutating the `_broadcaster` global:
a `startup()` (with the redis availability it observes) or a `cleanup()`. -/
inductive FacadeOp where
  | startupOp (master slave : Bool)
  | cleanupOp
  deriving DecidableEq, Repr

/-- Apply one facade call to the global state. -/
def facadeStep (op : FacadeOp) (s : FacadeState) : FacadeState :=
  match op with
  | .startupOp master slave => startup master slave s
  | .cleanupOp => cleanup s

/-- All states of the `_broadcaster` global visited while running a
sequence of facade calls from an initial state (initial state included). -/
def facadeTrace (s : FacadeState) : List FacadeOp → List FacadeState
  | [] => [s]
  | op :: ops => s :: facadeTrace (facadeStep op s) ops

/-- The states of the `_broadcaster` global observable by concurrent
readers at each suspension point of the Local-to-Redis migration branch of
`startup` (lines 48-53), starting from Local broadcaster `b`:
entry; after the assignment on line 51 (a fresh, uninitialized
`RedisBroadcaster` with no subscriptions); after `await _broadcaster.init()`
on line 52; after `await _broadcaster.copy_local_subscriptions(...)` on
line 53. -/
def migrationTrace (b : Broadcaster) : List FacadeState :=
  [some b,
   some ⟨.redis, false, []⟩,
   some ⟨.redis, true, []⟩,
   some ⟨.redis, true, b.subs⟩]

/-! ## Helper lemmas -/

theorem lookupKey_cons {α : Type} (k key : String) (v : α)
    (rest : List (String × α)) :
    lookupKey k ((key, v) :: rest) =
      if k = key then some v else lookupKey k rest := rfl

theorem validateFields_skip (schema : Schema) (k : String) (p : Prim)
    (entries : List (String × Prim)) (h : k ∉ schema.map Prod.fst) :
    validateFields schema ((k, p) :: entries) =
      validateFields schema entries := by
  induction schema with
  | nil => rfl
  | cons hd tl ih =>
    obtain ⟨k1, ty⟩ := hd
    simp only [List.map_cons, List.mem_cons, not_or] at h
    have hne : ¬ (k1 = k) := fun e => h.1 e.symm
    simp only [validateFields, lookupKey_cons, if_neg hne, ih h.2]

theorem validateFields_dump (fields : List (String × Prim))
    (hnodup : (fields.map Prod.fst).Nodup) :
    validateFields (fields.map (fun f => (f.1, primTy f.2))) fields
      = some fields := by
  induction fields with
  | nil => rfl
  | cons hd tl ih =>
    obtain ⟨k, p⟩ := hd
    simp only [List.map_cons, List.nodup_cons] at hnodup
    have hskip : k ∉ (tl.map (fun f => (f.1, primTy f.2))).map Prod.fst := by
      simpa using hnodup.1
    simp only [validateFields, lookupKey_cons,
      validateFields_skip _ k p tl hskip, ih hnodup.2]
    simp

theorem deserialize_payload_err (payload : PyValue) (rt : Option PyTypeObj)
    (e : PyErr) (h : _deserialize_payload payload rt = .error e) :
    e = .validationError := by
  match rt with
  | none => simp [_deserialize_payload] at h
  | some .nonClass => simp [_deserialize_payload] at h
  | some .otherClass => simp [_deserialize_payload] at h
  | some (.modelClass schema) =>
    match payload with
    | .prim _ => simp [_deserialize_payload] at h
    | .model _ _ => simp [_deserialize_payload] at h
    | .pynone => simp [_deserialize_payload] at h
    | .dict entries =>
      simp only [_deserialize_payload, model_validate] at h
      cases hv : validateFields schema entries with
      | some fields => rw [hv] at h; exact absurd h (by simp)
      | none => rw [hv] at h; cases h; rfl

theorem deserializeItem_err (rt : Option PyTypeObj) (item : Item) (e : PyErr)
    (h : deserializeItem rt item = .error e) : e = .validationError := by
  match item with
  | .missing => simp [deserializeItem] at h
  | .envelope hn p payload =>
    simp only [deserializeItem] at h
    cases hd : _deserialize_payload payload rt with
    | ok v => rw [hd] at h; simp [Except.map] at h
    | error e2 =>
      rw [hd] at h
      simp only [Except.map, Except.error.injEq] at h
      exact h ▸ deserialize_payload_err payload rt e2 hd

theorem mapM_deserializeItem_err (rt : Option PyTypeObj) (items : List Item)
    (e : PyErr) (h : items.mapM (deserializeItem rt) = .error e) :
    e = .validationError := by
  induction items with
  | nil => simp [List.mapM.loop, pure, Except.pure] at h
  | cons hd tl ih =>
    rw [List.mapM_cons] at h
    cases hh : deserializeItem rt hd with
    | error e2 =>
      rw [hh] at h
      simp only [bind, Except.bind] at h
      cases h
      exact deserializeItem_err rt hd e hh
    | ok v =>
      rw [hh] at h
      simp only [bind, Except.bind] at h
      cases ht : tl.mapM (deserializeItem rt) with
      | error e3 =>
        rw [ht] at h
        cases h
        exact ih ht
      | ok vs => rw [ht] at h; exact absurd h (by simp [pure, Except.pure])

theorem append_sep_inj (x : Char) :
    ∀ (a c b d : List Char), x ∉ b → x ∉ d →
      a ++ x :: b = c ++ x :: d → a = c ∧ b = d := by
  intro a
  induction a with
  | nil =>
    intro c b d hb hd h
    cases c with
    | nil =>
      simp only [List.nil_append, List.cons.injEq] at h
      exact ⟨rfl, h.2⟩
    | cons y cs =>
      simp only [List.nil_append, List.cons_append, List.cons.injEq] at h
      exact absurd (h.2 ▸ List.mem_append_right cs (List.mem_cons_self x d))
        (h.1 ▸ hb)
  | cons y as ih =>
    intro c b d hb hd h
    cases c with
    | nil =>
      simp only [List.cons_append, List.nil_append, List.cons.injEq] at h
      exact absurd
        (h.2.symm ▸ List.mem_append_right as (List.mem_cons_self x b))
        (h.1.symm ▸ hd)
    | cons z cs =>
      simp only [List.cons_append, List.cons.injEq] at h
      have := ih cs b d hb hd h.2
      exact ⟨by rw [h.1, this.1], this.2⟩

theorem facadeTrace_head (s : FacadeState) (ops : List FacadeOp) :
    (facadeTrace s ops).head? = some s := by
  cases ops <;> rfl

theorem facadeStep_no_downgrade (op : FacadeOp) (s : FacadeState)
    (b1 : Broadcaster) (h1 : s = some b1) (hk : b1.kind = .redis)
    (b2 : Broadcaster) (h2 : facadeStep op s = some b2) :
    b2.kind = .redis := by
  subst h1
  cases op with
  | cleanupOp => exact Option.noConfusion h2
  | startupOp master slave =>
    simp only [facadeStep, startup, hk] at h2
    simp at h2
    rw [← h2]
    exact hk

/-! ## Claims -/

/-- C1: when the facade-level `broadcast` is called with
`expect_answers=True` and the backend returns a list, the facade returns a
list of the same length whose element `i` is a `BroadcastResponse`
envelope exactly when the backend's element `i` is a response dict, and a
`MissingAnswer` sentinel exactly when the backend's element `i` is `None`. -/
theorem c1_broadcast_envelopes (backend : Backend) (channel : String)
    (params : Option (List (String × PyValue))) (timeout : Nat)
    (rs : List (Option Resp))
    (h : backend channel (params.getD []) true timeout = some rs) :
    (broadcast backend channel params true timeout).1
      = some (rs.map respToItem)
    ∧ (rs.map respToItem).length = rs.length
    ∧ ∀ (i : Nat) (hi : i < rs.length)
        (hi2 : i < (rs.map respToItem).length),
        ((rs.map respToItem)[i]).isEnvelope = (rs[i]).isSome := by
  refine ⟨?_, by simp, ?_⟩
  · cases params with
    | none => simp only [Option.getD] at h; simp [broadcast, h]
    | some p => simp only [Option.getD] at h; simp [broadcast, h]
  · intro i hi hi2
    rw [List.getElem_map]
    cases hr : rs[i] with
    | none => simp [respToItem, Item.isEnvelope]
    | some r => simp [respToItem, Item.isEnvelope]

/-- Witness for C1 at a concrete backend returning one response dict and
one missing answer. -/
theorem c1_broadcast_envelopes_witness :
    (broadcast (fun _ _ _ _ => some [some ⟨"host", 4, .prim (.pint 7)⟩, none])
        "chan" none true 10).1
      = some [Item.envelope "host" 4 (.prim (.pint 7)), Item.missing] := by
  have h := c1_broadcast_envelopes
    (fun _ _ _ _ => some [some ⟨"host", 4, .prim (.pint 7)⟩, none])
    "chan" none 10 [some ⟨"host", 4, .prim (.pint 7)⟩, none] rfl
  rw [h.1]
  rfl

/-- C2: a stub produced by `decorate` with `expect_answers=False` returns
`None` on every call with keyword arguments only, regardless of the
backend's behavior (hence of the subscriber count and of what the wrapped
handler would return locally). -/
theorem c2_fire_and_forget (backend : Backend) (func : PyFunc)
    (chan : String) (timeout : Nat) (kwargs : List (String × PyValue)) :
    (wrapper backend func chan false timeout [] kwargs).1
      = .ok none := by
  rfl

/-- C9: the facade-level `broadcast` treats omitted/`None` params exactly
as the empty dict: the calls are identical, and the dict handed to the
backend is always `params.getD []` (a dict, never `None`). -/
theorem c9_params_default (backend : Backend) (channel : String)
    (expect_answers : Bool) (timeout : Nat) :
    broadcast backend channel none expect_answers timeout
      = broadcast backend channel (some []) expect_answers timeout
    ∧ ∀ (params : Option (List (String × PyValue))),
        (broadcast backend channel params expect_answers timeout).2.params
          = params.getD [] := by
  refine ⟨rfl, ?_⟩
  intro params
  cases params <;> rfl

/-- C7: calling a decorated stub with a positional argument raises the
assertion before any broadcast is published (the call list stays empty),
while a call with keyword arguments only never produces that assertion
failure. -/
theorem c7_positional_assert (backend : Backend) (func : PyFunc)
    (chan : String) (expect_answers : Bool) (timeout : Nat)
    (args : List PyValue) (kwargs : List (String × PyValue))
    (h : args ≠ []) :
    wrapper backend func chan expect_answers timeout args kwargs
      = (.error (.assertionError
          "Broadcast decorator should not be called with positional arguments"),
         [])
    ∧ ∀ (kwargs2 : List (String × PyValue)) (msg : String),
        (wrapper backend func chan expect_answers timeout [] kwargs2).1
          ≠ .error (.assertionError msg) := by
  refine ⟨by simp [wrapper, h], ?_⟩
  intro kwargs2 msg
  cases expect_answers with
  | false => intro hc; exact Except.noConfusion hc
  | true =>
    show collectAnswers (_get_return_type func)
        (broadcast backend chan
          (some (_serialize_params kwargs2)) true timeout).1
      ≠ Except.error (.assertionError msg)
    cases hb : (broadcast backend chan
        (some (_serialize_params kwargs2)) true timeout).1 with
    | none => simp [collectAnswers]
    | some items =>
      simp only [collectAnswers]
      cases hm : items.mapM (deserializeItem (_get_return_type func)) with
      | ok items2 => simp
      | error e =>
        intro hcontra
        simp only [Except.error.injEq] at hcontra
        have h2 := mapM_deserializeItem_err _ _ _ hm
        rw [h2] at hcontra
        exact PyErr.noConfusion hcontra

/-- Witness for C7 at a concrete positional-argument call. -/
theorem c7_positional_assert_witness :
    wrapper (fun _ _ _ _ => none) ⟨"mod", "fn", []⟩ "chan" true 10
        [PyValue.pynone] []
      = (.error (.assertionError
          "Broadcast decorator should not be called with positional arguments"),
         []) := by
  have h := c7_positional_assert (fun _ _ _ _ => none) ⟨"mod", "fn", []⟩
    "chan" true 10 [PyValue.pynone] [] (by simp)
  exact h.1

/-- C6: the default channel derived by `decorate` is a function of exactly
the handler's defining module and name: handlers agreeing on module and
name (whatever their type hints) get the same channel, and — as long as
handler names are Python identifiers, hence contain no dot — handlers
differing in module or name get different channels. -/
theorem c6_channel_derivation (f g : PyFunc)
    (hm : f.module = g.module) (hn : f.name = g.name)
    (m1 n1 m2 n2 : String) (hs1 hs2 : List (String × PyTypeObj))
    (h1 : ('.' : Char) ∉ n1.data) (h2 : ('.' : Char) ∉ n2.data)
    (heq : decorateChannel none ⟨m1, n1, hs1⟩
      = decorateChannel none ⟨m2, n2, hs2⟩) :
    decorateChannel none f = decorateChannel none g
    ∧ m1 = m2 ∧ n1 = n2 := by
  refine ⟨by simp [decorateChannel, hm, hn], ?_⟩
  simp only [decorateChannel] at heq
  rw [String.ext_iff] at heq
  simp only [String.data_append] at heq
  simp only [List.append_assoc, List.singleton_append] at heq
  have heq2 := List.append_cancel_left heq
  have := append_sep_inj '.' m1.data m2.data n1.data n2.data h1 h2 heq2
  exact ⟨String.ext this.1, String.ext this.2⟩

/-- Witness for C6 at concrete modules and names. -/
theorem c6_channel_derivation_witness :
    decorateChannel none ⟨"pkg.mod", "handler", []⟩
      = decorateChannel none ⟨"pkg.mod", "handler", []⟩
    ∧ ("pkg.mod" : String) = "pkg.mod" ∧ ("handler" : String) = "handler" :=
  c6_channel_derivation ⟨"pkg.mod", "handler", []⟩ ⟨"pkg.mod", "handler", []⟩
    rfl rfl "pkg.mod" "handler" "pkg.mod" "handler" [] []
    (by decide) (by decide) rfl

/-- C10: the deserialization helpers are the identity (and never raise)
outside the structured-model shapes: `_deserialize_payload` passes the
payload through whenever the declared return type is absent, not a class,
a non-Pydantic class, or the payload is not a mapping; `_deserialize_kwargs`
passes every value through whose key has no hint, whose value is not a
mapping, or whose hinted type is not a Pydantic model class. -/
theorem c10_passthrough :
    (∀ (payload : PyValue) (rt : Option PyTypeObj),
      (rt = none ∨ rt = some .nonClass ∨ rt = some .otherClass
        ∨ ∀ entries, payload ≠ .dict entries) →
      _deserialize_payload payload rt = .ok payload)
    ∧ ∀ (kwargs : List (String × PyValue)) (func : PyFunc),
        (∀ kv ∈ kwargs,
          lookupKey kv.1 func.hints = none
          ∨ (∀ entries, kv.2 ≠ .dict entries)
          ∨ ∀ schema, lookupKey kv.1 func.hints ≠ some (.modelClass schema)) →
        _deserialize_kwargs kwargs func = .ok kwargs := by
  have hpay : ∀ (payload : PyValue) (rt : Option PyTypeObj),
      (rt = none ∨ rt = some .nonClass ∨ rt = some .otherClass
        ∨ ∀ entries, payload ≠ .dict entries) →
      _deserialize_payload payload rt = .ok payload := by
    intro payload rt h
    rcases h with h | h | h | h
    · rw [h]; rfl
    · rw [h]; rfl
    · rw [h]; rfl
    · match rt with
      | none => rfl
      | some .nonClass => rfl
      | some .otherClass => rfl
      | some (.modelClass schema) =>
        match payload with
        | .prim _ => rfl
        | .model _ _ => rfl
        | .pynone => rfl
        | .dict entries => exact absurd rfl (h entries)
  have hone : ∀ (func : PyFunc) (kv : String × PyValue),
      (lookupKey kv.1 func.hints = none
        ∨ (∀ entries, kv.2 ≠ .dict entries)
        ∨ ∀ schema, lookupKey kv.1 func.hints ≠ some (.modelClass schema)) →
      _deserialize_kwarg func kv = .ok kv := by
    intro func kv h
    rcases h with h | h | h
    · simp [_deserialize_kwarg, h]
    · simp only [_deserialize_kwarg]
      cases hl : lookupKey kv.1 func.hints with
      | none => rfl
      | some pt =>
        match hv : kv.2, pt with
        | .prim _, _ => cases pt <;> rfl
        | .model _ _, _ => cases pt <;> rfl
        | .pynone, _ => cases pt <;> rfl
        | .dict entries, _ => exact absurd hv (h entries)
    · simp only [_deserialize_kwarg]
      cases hl : lookupKey kv.1 func.hints with
      | none => rfl
      | some pt =>
        match pt with
        | .nonClass => cases kv.2 <;> rfl
        | .otherClass => cases kv.2 <;> rfl
        | .modelClass schema => exact absurd hl (h schema)
  refine ⟨hpay, ?_⟩
  intro kwargs func h
  induction kwargs with
  | nil => rfl
  | cons hd tl ih =>
    rw [_deserialize_kwargs] at ih ⊢
    rw [List.mapM_cons, hone func hd (h hd (List.mem_cons_self hd tl))]
    rw [ih fun kv hkv => h kv (List.mem_cons_of_mem hd hkv)]
    rfl

/-- Witness for C10 at a concrete non-model payload and kwargs. -/
theorem c10_passthrough_witness :
    _deserialize_payload (.prim (.pint 5)) none = .ok (.prim (.pint 5))
    ∧ _deserialize_kwargs [("a", PyValue.prim (.pstr "x"))] ⟨"m", "f", []⟩
        = .ok [("a", PyValue.prim (.pstr "x"))] :=
  ⟨c10_passthrough.1 (.prim (.pint 5)) none (by simp),
   c10_passthrough.2 [("a", PyValue.prim (.pstr "x"))] ⟨"m", "f", []⟩
     (by intro kv hkv; left; simp [lookupKey])⟩

/-- C5: for a handler declared to accept and return flat Pydantic models,
serialize-then-deserialize is the identity: `_deserialize_kwargs` after
`_serialize_params` reconstructs the model argument sent, and
`_deserialize_payload` applied to the `model_dump` of the returned model,
with the declared return type, reconstructs the model returned. -/
theorem c5_model_round_trip (key : String) (schema : Schema)
    (fields : List (String × Prim)) (rschema : Schema)
    (rfields : List (String × Prim)) (func : PyFunc)
    (hconf : fields.map (fun f => (f.1, primTy f.2)) = schema)
    (hnodup : (fields.map Prod.fst).Nodup)
    (hhint : lookupKey key func.hints = some (.modelClass schema))
    (hrconf : rfields.map (fun f => (f.1, primTy f.2)) = rschema)
    (hrnodup : (rfields.map Prod.fst).Nodup)
    (hrhint : lookupKey "return" func.hints = some (.modelClass rschema)) :
    _deserialize_kwargs
        (_serialize_params [(key, .model schema fields)]) func
      = .ok [(key, .model schema fields)]
    ∧ _deserialize_payload (model_dump rfields) (_get_return_type func)
      = .ok (.model rschema rfields) := by
  subst hconf
  subst hrconf
  constructor
  · have hser : _serialize_params
        [(key, .model (fields.map (fun f => (f.1, primTy f.2))) fields)]
        = [(key, .dict fields)] := rfl
    rw [hser]
    have hone : _deserialize_kwarg func (key, .dict fields)
        = .ok (key, .model (fields.map (fun f => (f.1, primTy f.2))) fields) := by
      simp only [_deserialize_kwarg, hhint, model_validate,
        validateFields_dump fields hnodup]
      rfl
    rw [_deserialize_kwargs, List.mapM_cons, hone]
    rfl
  · have hrt : _get_return_type func = some (.modelClass
        (rfields.map (fun f => (f.1, primTy f.2)))) := hrhint
    rw [hrt]
    simp only [model_dump, _deserialize_payload, model_validate,
      validateFields_dump rfields hrnodup]

/-- Witness for C5 at a concrete model-typed parameter and return type. -/
theorem c5_model_round_trip_witness :
    _deserialize_kwargs
        (_serialize_params
          [("m", PyValue.model [("value", .tint)] [("value", .pint 3)])])
        ⟨"mod", "handler",
          [("m", .modelClass [("value", .tint)]),
           ("return", .modelClass [("flag", .tbool)])]⟩
      = .ok [("m", PyValue.model [("value", .tint)] [("value", .pint 3)])]
    ∧ _deserialize_payload (model_dump [("flag", .pbool true)])
        (_get_return_type
          ⟨"mod", "handler",
            [("m", .modelClass [("value", .tint)]),
             ("return", .modelClass [("flag", .tbool)])]⟩)
      = .ok (PyValue.model [("flag", .tbool)] [("flag", .pbool true)]) :=
  c5_model_round_trip "m" [("value", .tint)] [("value", .pint 3)]
    [("flag", .tbool)] [("flag", .pbool true)]
    ⟨"mod", "handler",
      [("m", .modelClass [("value", .tint)]),
       ("return", .modelClass [("flag", .tbool)])]⟩
    (by decide) (by decide) (by decide) (by decide) (by decide) (by decide)

/-- C3: the facade's active-broadcaster state never downgrades: along any
sequence of `startup()`/`cleanup()` calls, no step replaces a Networked
(Redis) broadcaster with a Local one (a step from a Networked state leads
to a Networked state or, under `cleanup()`, to uninitialized `None`), and
`startup()` on a Networked broadcaster leaves the active reference
unchanged. -/
theorem c3_no_downgrade (master slave : Bool) (b : Broadcaster)
    (hb : b.kind = .redis) :
    startup master slave (some b) = some b
    ∧ (∀ (op : FacadeOp) (s : FacadeState) (b1 b2 : Broadcaster),
        s = some b1 → b1.kind = .redis → facadeStep op s = some b2 →
        b2.kind = .redis)
    ∧ ∀ (ops : List FacadeOp) (s0 : FacadeState),
        (facadeTrace s0 ops).Chain'
          (fun s t => ∀ b1, s = some b1 → b1.kind = .redis →
            ∀ b2, t = some b2 → b2.kind = .redis) := by
  refine ⟨by simp [startup, hb], ?_, ?_⟩
  · intro op s b1 b2 h1 hk h2
    exact facadeStep_no_downgrade op s b1 h1 hk b2 h2
  · intro ops
    induction ops with
    | nil => intro s0; simp [facadeTrace]
    | cons op tl ih =>
      intro s0
      rw [facadeTrace, List.chain'_cons']
      constructor
      · intro t ht
        rw [facadeTrace_head] at ht
        simp only [Option.mem_def, Option.some.injEq] at ht
        intro b1 hs0 hk b2 h2
        rw [← ht] at h2
        exact facadeStep_no_downgrade op s0 b1 hs0 hk b2 h2
      · exact ih (facadeStep op s0)

/-- Witness for C3: a `startup()` with no Redis available leaves a
Networked broadcaster in place. -/
theorem c3_no_downgrade_witness :
    startup false false (some ⟨.redis, true, [("chan", 0)]⟩)
      = some ⟨.redis, true, [("chan", 0)]⟩ :=
  (c3_no_downgrade false false ⟨.redis, true, [("chan", 0)]⟩ rfl).1

/-- C4 counterexample: the claim that no step of the Local-to-Networked
migration exposes a Networked broadcaster that is uninitialized or missing
the old subscriptions is false on the code: the assignment on line 51
happens before `await _broadcaster.init()` on line 52, so the second
observable state of the migration from a Local broadcaster subscribed to
`"chan"` is an uninitialized Networked broadcaster with no
subscriptions. -/
theorem c4_migration_counterexample :
    ¬ (∀ s ∈ migrationTrace ⟨BrKind.loc, true, [("chan", 0)]⟩,
        ∀ b2, s = some b2 → b2.kind = BrKind.redis →
          b2.initialized = true ∧ b2.subs = [("chan", 0)]) := by
  intro h
  have := h (some ⟨.redis, false, []⟩) (by simp [migrationTrace])
    ⟨.redis, false, []⟩ rfl rfl
  exact Bool.noConfusion this.1

/-- C4 amended: in the migration branch of `startup()`, the active
reference is replaced *before* `init()` and `copy_local_subscriptions()`
complete: the state right after the swap (the second observable state) is
an uninitialized Networked broadcaster with no subscriptions, so a reader
at an intermediate await point can observe it; once the branch completes,
the active broadcaster is Networked, initialized, and carries all of the
old Local instance's subscriptions, which is also what the atomic
`startup` transition yields. -/
theorem c4_migration_amended (ini : Bool) (subs : List (String × Nat)) :
    (migrationTrace ⟨.loc, ini, subs⟩).get? 1
      = some (some ⟨.redis, false, []⟩)
    ∧ (∃ s ∈ migrationTrace ⟨.loc, ini, subs⟩, ∃ b2, s = some b2
        ∧ b2.kind = .redis ∧ b2.initialized = false)
    ∧ (migrationTrace ⟨.loc, ini, subs⟩).getLast?
      = some (some ⟨.redis, true, subs⟩)
    ∧ startup true true (some ⟨.loc, ini, subs⟩)
      = some ⟨.redis, true, subs⟩ := by
  refine ⟨rfl, ?_, rfl, by simp [startup]⟩
  exact ⟨some ⟨.redis, false, []⟩, by simp [migrationTrace],
    ⟨.redis, false, []⟩, rfl, rfl, rfl⟩

/-- C8 counterexample: the claim that every pre-`startup()` use of
subscribe, unsubscribe or broadcast logs a warning is false on the code:
`subscribe`/`unsubscribe` call `_get()` with `need_init=False`, which logs
nothing, and `broadcast` logs at error (not warning) level. -/
theorem c8_uninitialized_counterexample :
    (facadeSubscribe "test1" 0 none).2 = ([] : List LogEvent)
    ∧ (facadeUnsubscribe "test1" none).2 = ([] : List LogEvent)
    ∧ ∀ e ∈ (facadeBroadcastGet none).2, e.level ≠ LogLevel.warning := by
  refine ⟨rfl, rfl, ?_⟩
  intro e he
  simp only [facadeBroadcastGet, _get, List.mem_cons, List.not_mem_nil,
    or_false, if_pos] at he
  rw [he]
  exact fun hc => LogLevel.noConfusion hc

/-- C8 amended: using subscribe, unsubscribe or broadcast before any
`startup()` auto-constructs a Local broadcaster and proceeds without
raising; `subscribe`/`unsubscribe` do so silently (no log record), and
only `broadcast` (which calls `_get` with `need_init=True`) logs a record,
at error level. -/
theorem c8_uninitialized_amended (channel : String) (handler : Nat) :
    (∃ b, (facadeSubscribe channel handler none).1 = some b
      ∧ b.kind = .loc)
    ∧ (facadeSubscribe channel handler none).2 = []
    ∧ (∃ b, (facadeUnsubscribe channel none).1 = some b ∧ b.kind = .loc)
    ∧ (facadeUnsubscribe channel none).2 = []
    ∧ (_get true none).1.kind = .loc
    ∧ (facadeBroadcastGet none).1 = some (_get true none).1
    ∧ (facadeBroadcastGet none).2
      = [⟨.error, "Broadcast functionality used before it is setup"⟩] := by
  refine ⟨⟨⟨.loc, false, [(channel, handler)]⟩, ?_, rfl⟩, rfl,
    ⟨⟨.loc, false, []⟩, rfl, rfl⟩, rfl, rfl, rfl, rfl⟩
  rfl
